import Mathlib

/-!
Shallow embedding of the PsiCash client core (src/psicash.cpp) and proofs about it.

Conventions of the embedding:
- DateTime values are modelled as Nat; the default-constructed ("zero") DateTime is 0,
  matching DateTime::IsZero.
- The persisted store (UserData; declared in userdata.h, which is not part of this
  source slice) is modelled from the spec as a record of the persisted fields, with
  each accessor an atomic pure update.
- External codecs (JSON parse/serialize, ISO8601/RFC7231 date parsing, base64) are
  out of scope per the spec; they are passed in as abstract parse functions, and
  encoder outputs are modelled at the payload level.
- The injected HTTP transport callable is modelled as a scripted test double indexed
  by the attempt number (the spec explicitly describes such doubles returning
  scripted envelopes per attempt).
-/

namespace PsiCash

/-- Purchase record. Modelled from the spec data model (the struct lives in psicash.h,
not in this source slice): id, transaction_class, distinguisher, optional
authorization, optional server_time_expiry, optional local_time_expiry. -/
structure Purchase where
  id : String
  transaction_class : String
  distinguisher : String
  authorization : Option String
  server_time_expiry : Option Nat
  local_time_expiry : Option Nat
deriving Repr, DecidableEq

/-- Embeds operator==(const Purchase&, const Purchase&) from src/psicash.cpp
lines 595-601. It compares transaction_class, distinguisher, server_time_expiry
and authorization; the line comparing local_time_expiry is commented out in the
source, and id is not compared at all. -/
def purchaseEq (lhs rhs : Purchase) : Bool :=
  lhs.transaction_class == rhs.transaction_class &&
  lhs.distinguisher == rhs.distinguisher &&
  lhs.server_time_expiry == rhs.server_time_expiry &&
  lhs.authorization == rhs.authorization

/-- Modelled from the spec: the persisted store (userdata.h/userdata.cpp are not in
this source slice). Fields: auth tokens (a key-unique mapping), account flag,
balance, purchases, request metadata, clock skew (server time minus local time). -/
structure UserData where
  auth_tokens : List (String × String)
  is_account : Bool
  balance : Int
  purchases : List Purchase
  metadata : List (String × String)
  server_time_diff : Int
deriving Repr, DecidableEq

/-- Modelled from the spec: purchases have replace-whole-list semantics. -/
def UserData.SetPurchases (ud : UserData) (ps : List Purchase) : UserData :=
  { ud with purchases := ps }

/-- Modelled from the spec: the store exposes an append-one operation for purchases;
a freshly constructed Purchase is stored as-is (local_time_expiry is only derived
after a round-trip through persistence). -/
def UserData.AddPurchase (ud : UserData) (p : Purchase) : UserData :=
  { ud with purchases := ud.purchases ++ [p] }

/-- Modelled from the spec: balance is an integer set wholesale. -/
def UserData.SetBalance (ud : UserData) (b : Int) : UserData :=
  { ud with balance := b }

/-- Modelled from the spec: tokens are set wholesale by the transaction layer
(together with the account flag). -/
def UserData.SetAuthTokens (ud : UserData) (tokens : List (String × String))
    (is_acct : Bool) : UserData :=
  { ud with auth_tokens := tokens, is_account := is_acct }

/-- Lookup in the token mapping with the semantics of std::map operator[]: a missing
key yields a default-constructed (empty) string. -/
def mapGet (m : List (String × String)) (k : String) : String :=
  (m.lookup k).getD ""

/-- Token type key for the earner token. -/
def kEarnerTokenType : String := "earner"

/-- Embeds IsExpired from src/psicash.cpp lines 117-120, parameterized by the local
clock instant that DateTime::Now() returns: a purchase is expired iff its
local_time_expiry is present and strictly earlier than local now. -/
def IsExpired (local_now : Nat) (p : Purchase) : Bool :=
  match p.local_time_expiry with
  | some t => decide (t < local_now)
  | none => false

/-- Comparison of two optional DateTimes with the semantics of
std::optional operator< (an empty optional is less than any engaged one). -/
def optLt (a b : Option Nat) : Bool :=
  match a, b with
  | none, none => false
  | none, some _ => true
  | some _, none => false
  | some x, some y => decide (x < y)

/-- Embeds the loop of PsiCash::NextExpiringPurchase, src/psicash.cpp lines 132-152:
skip purchases without a server_time_expiry; take the first candidate; afterwards
replace the candidate only when the new expiry is strictly smaller. -/
def nextLoop : Option Purchase → List Purchase → Option Purchase
  | next, [] => next
  | next, p :: rest =>
    if p.server_time_expiry.isNone then
      nextLoop next rest
    else
      match next with
      | none => nextLoop (some p) rest
      | some n =>
        if optLt p.server_time_expiry n.server_time_expiry then
          nextLoop (some p) rest
        else
          nextLoop next rest

/-- Embeds PsiCash::NextExpiringPurchase, src/psicash.cpp lines 132-152. -/
def NextExpiringPurchase (ud : UserData) : Option Purchase :=
  nextLoop none ud.purchases

/-- Combines a head value with an optional minimum of the tail. -/
def minD (x : Nat) : Option Nat → Nat
  | none => x
  | some m => min x m

/-- Minimum of a list of naturals, written from the spec wording (the earliest
value among the expiries); none for the empty list. -/
def listMin : List Nat → Option Nat
  | [] => none
  | x :: xs => some (minD x (listMin xs))

/-- Selects the first purchase whose server expiry equals the given minimum. -/
def findMinExpiry (l : List Purchase) : Option Nat → Option Purchase
  | none => none
  | some m => l.find? (fun p => p.server_time_expiry == some m)

/-- Written from the spec wording for NextExpiringPurchase: among purchases with a
server_time_expiry, the one with the earliest such value; ties broken by encounter
order (the first purchase attaining the minimum wins); purchases lacking
server_time_expiry are excluded entirely; none if no purchase qualifies. -/
def specNextExpiring (l : List Purchase) : Option Purchase :=
  findMinExpiry l (listMin (l.filterMap fun p => p.server_time_expiry))

/-- Embeds PsiCash::ExpirePurchases, src/psicash.cpp lines 154-171, parameterized by
the local clock instant: one pass over the stored purchases pushes each onto the
expired or the valid list (List.partition is exactly this loop); the valid list is
persisted and the expired list returned. -/
def ExpirePurchases (local_now : Nat) (ud : UserData) : List Purchase × UserData :=
  let parts := ud.purchases.partition (IsExpired local_now)
  (parts.1, ud.SetPurchases parts.2)

/-- Payload built by GetRewardedActivityData. The JSON serialization and base64
encoding applied to it are external codecs (out of scope per the spec), so the
model returns the payload itself. -/
structure RewardedActivityData where
  v : Nat
  tokens : String
  metadata : List (String × String)
deriving Repr, DecidableEq

/-- Embeds PsiCash::GetRewardedActivityData, src/psicash.cpp lines 241-283: errors
when the stored token mapping is empty; otherwise builds the payload with
tokens taken from the mapping at the earner key (std::map operator[] semantics:
an absent key yields the empty string) and the stored request metadata. -/
def GetRewardedActivityData (ud : UserData) : Except String RewardedActivityData :=
  if ud.auth_tokens.length == 0 then
    .error "earner token missing; cannot create webhoook data"
  else
    .ok { v := 1, tokens := mapGet ud.auth_tokens kEarnerTokenType,
          metadata := ud.metadata }

/-- HTTPResult accumulator of MakeHTTPRequestWithRetry. The strings default to
empty; the initial status value is never observed (every attempt assigns status
before any return path), so it is modelled as -1. -/
structure HTTPResult where
  status : Int
  body : String
  date : String
  error : String
deriving Repr, DecidableEq

/-- Default-constructed HTTPResult at the top of MakeHTTPRequestWithRetry. -/
def HTTPResult.init : HTTPResult :=
  { status := -1, body := "", date := "", error := "" }

/-- What one invocation of the injected transport callable yields, after the
json::parse step of the envelope is classified: an empty return string, an
envelope whose parse (or status extraction) throws, or a parsed envelope
carrying status plus the body/date/error fields when each is present as a
string (absent-or-wrong-type is modelled as none, matching is_string). -/
inductive TransportReturn where
  | empty
  | malformed
  | parsed (status : Int) (body date error : Option String)
deriving Repr, DecidableEq

/-- Outcome of the retry loop: the returned Result, the store after any clock-skew
updates, the number of attempts performed, and the list of sleeps executed by the
inter-attempt wait branch (each recorded with its duration argument). -/
structure RetryOutcome where
  result : Except String HTTPResult
  ud : UserData
  attempts : Nat
  sleeps : List Nat

/-- The guard of the inter-attempt wait branch, src/psicash.cpp line 315:
the C++ int loop index compared against zero with the strict less-than. -/
def sleepGuard (i : Nat) : Bool :=
  decide ((i : Int) < 0)

/-- Applies one parsed envelope to the HTTPResult accumulator, src/psicash.cpp
lines 334-346: status is always assigned; body, date and error are assigned only
when present as strings, otherwise the previous contents are kept. -/
def applyEnvelope (acc : HTTPResult) (st : Int) (b d e : Option String) : HTTPResult :=
  { status := st
    body := b.getD acc.body
    date := d.getD acc.date
    error := e.getD acc.error }

/-- Modelled from the spec: SetServerTimeDiff stores the clock skew
(server time minus local time) whenever the date header parses per RFC7231;
parse failures are ignored. Src lines 357-365. -/
def updateServerTimeDiff (parseRFC7231 : String → Option Int) (local_now : Int)
    (date : String) (ud : UserData) : UserData :=
  if date = "" then ud
  else
    match parseRFC7231 date with
    | some server_now => { ud with server_time_diff := server_now - local_now }
    | none => ud

/-- Attempt budget of MakeHTTPRequestWithRetry, src/psicash.cpp line 311. -/
def maxAttempts : Nat := 3

/-- Embeds the for-loop of PsiCash::MakeHTTPRequestWithRetry, src/psicash.cpp
lines 314-382, as structural recursion on the remaining attempt budget
(remaining = max_attempts - i, so the loop guard i < max_attempts becomes
remaining > 0). Each attempt: run the sleep branch under its guard, invoke the
transport double for this attempt, fold the parsed envelope into the
accumulator, fail on the status -1 / empty error inconsistency, update the
clock skew from any date, fail on a non-empty error string, retry on
status >= 500 and otherwise return the accumulator; on exhaustion the last
accumulator is returned as a success. -/
def retryGo (transport : Nat → TransportReturn) (parseRFC7231 : String → Option Int)
    (local_now : Int) :
    Nat → Nat → HTTPResult → UserData → List Nat → RetryOutcome
  | 0, i, acc, ud, sleeps => ⟨.ok acc, ud, i, sleeps⟩
  | remaining + 1, i, acc, ud, sleeps =>
    let sleeps := if sleepGuard i then sleeps ++ [i] else sleeps
    match transport i with
    | .empty => ⟨.error "HTTP request function returned no value", ud, i + 1, sleeps⟩
    | .malformed => ⟨.error "json parse failed", ud, i + 1, sleeps⟩
    | .parsed st b d e =>
      let acc := applyEnvelope acc st b d e
      if acc.status == -1 && acc.error == "" then
        ⟨.error "HTTP result status is -1 but no error message provided", ud, i + 1, sleeps⟩
      else
        let ud := updateServerTimeDiff parseRFC7231 local_now acc.date ud
        if acc.error ≠ "" then
          ⟨.error ("Request resulted in error: " ++ acc.error), ud, i + 1, sleeps⟩
        else if acc.status ≥ 500 then
          retryGo transport parseRFC7231 local_now remaining (i + 1) acc ud sleeps
        else
          ⟨.ok acc, ud, i + 1, sleeps⟩

/-- Embeds PsiCash::MakeHTTPRequestWithRetry, src/psicash.cpp lines 308-383.
The method, path, auth flag and query parameters shape the request descriptor
consumed by the transport callable; the scripted transport double is indexed
by the loop attempt index. -/
def MakeHTTPRequestWithRetry (transport : Nat → TransportReturn)
    (parseRFC7231 : String → Option Int) (local_now : Int) (ud : UserData) :
    RetryOutcome :=
  retryGo transport parseRFC7231 local_now maxAttempts 0 HTTPResult.init ud []

/-- HTTP status constants from http_status_codes.h as used by the source. -/
def kHTTPStatusOK : Int := 200

def kHTTPStatusUnauthorized : Int := 401

def kHTTPStatusPaymentRequired : Int := 402

def kHTTPStatusNotFound : Int := 404

def kHTTPStatusConflict : Int := 409

def kHTTPStatusTooManyRequests : Int := 429

def kHTTPStatusInternalServerError : Int := 500

/-- Typed outcomes of NewExpiringPurchase (PsiCashStatus values used by the
source). -/
inductive PsiCashStatus where
  | Success
  | ExistingTransaction
  | InsufficientBalance
  | TransactionAmountMismatch
  | TransactionTypeNotFound
  | InvalidTokens
  | ServerError
deriving Repr, DecidableEq

/-- Return value of NewExpiringPurchase: the typed status plus the purchase,
populated only for Success. -/
structure NewExpiringPurchaseResponse where
  status : PsiCashStatus
  purchase : Option Purchase
deriving Repr, DecidableEq

/-- The transaction response body after json::parse, with each field present
exactly when it exists with the checked type in the JSON document
(is_number_integer for Balance, is_string for the others; a missing
intermediate TransactionResponse or Values object yields an absent field,
matching operator[] producing null on which is_string is false). -/
structure TransactionBody where
  Balance : Option Int
  TransactionID : Option String
  Authorization : Option String
  TransactionResponse_Type : Option String
  TransactionResponse_Values_Expires : Option String
deriving Repr, DecidableEq

/-- The hardcoded debug tokens set at the top of NewExpiringPurchase,
src/psicash.cpp lines 431-438 (marked TEMP in the source). -/
def hardTokens : List (String × String) :=
  [("earner", "569ee3e4784c39a3301285914f96c26746883f358c92fea16a8b2e41ad5be396"),
   ("spender", "eb3f9a195447137c51bc475b7620eb008812cc47edfcb3f34d4347f5211ad0a8"),
   ("indicator", "6058c5f924df70333271fe3899d543be7667edff62ddd5f39793c37809661a28")]

/-- Embeds the body-parsing phase of PsiCash::NewExpiringPurchase for the
statuses requiring a body, src/psicash.cpp lines 459-507: an empty body is a
fatal error; a json::parse exception is a fatal error; otherwise an integer
Balance is persisted right away, the optional string fields are read into
locals (absent means the default-constructed empty string / zero DateTime), and
a present-but-unparsable Expires is a fatal error. Returns the locals
(transaction_id, authorization, transaction_type, server_expiry) and the
possibly-updated store. -/
def parsePurchaseBody (parseBody : String → Option TransactionBody)
    (parseISO8601 : String → Option Nat) (result : HTTPResult) (ud : UserData) :
    Except String (String × String × String × Nat) × UserData :=
  if result.body = "" then
    (.error ("result has no body; status: " ++ toString result.status), ud)
  else
    match parseBody result.body with
    | none => (.error "json parse failed", ud)
    | some j =>
      let ud := match j.Balance with
                | some b => ud.SetBalance b
                | none => ud
      let transaction_id := j.TransactionID.getD ""
      let authorization := j.Authorization.getD ""
      let transaction_type := j.TransactionResponse_Type.getD ""
      match j.TransactionResponse_Values_Expires with
      | some s =>
        match parseISO8601 s with
        | none =>
          (.error ("failed to parse TransactionResponse.Values.Expires; got " ++ s), ud)
        | some t => (.ok (transaction_id, authorization, transaction_type, t), ud)
      | none => (.ok (transaction_id, authorization, transaction_type, 0), ud)

/-- Embeds PsiCash::NewExpiringPurchase, src/psicash.cpp lines 426-569.
Parameters beyond the source arguments: the scripted transport double, the
external JSON body parser (none models a json::parse exception), the external
ISO8601 date parser (none models FromISO8601 failure; the parsed Nat is the
DateTime, 0 being the zero DateTime), and the RFC7231 parser plus local now
for the clock-skew update inside the retry loop. The expected_price is turned
into the negative expectedAmount query field consumed by the transport
(not otherwise observable in the model). -/
def NewExpiringPurchase (transport : Nat → TransportReturn)
    (parseBody : String → Option TransactionBody)
    (parseISO8601 : String → Option Nat)
    (parseRFC7231 : String → Option Int) (local_now : Int)
    (transaction_class distinguisher : String) (expected_price : Int)
    (ud : UserData) : Except String NewExpiringPurchaseResponse × UserData :=
  let _expectedAmount : Int := -expected_price
  let ud := ud.SetAuthTokens hardTokens false
  let out := MakeHTTPRequestWithRetry transport parseRFC7231 local_now ud
  match out.result with
  | .error e => (.error ("MakeHTTPRequestWithRetry failed: " ++ e), out.ud)
  | .ok result =>
    let needsBody :=
      result.status == kHTTPStatusOK || result.status == kHTTPStatusTooManyRequests ||
      result.status == kHTTPStatusPaymentRequired || result.status == kHTTPStatusConflict
    let parseStep :=
      if needsBody then parsePurchaseBody parseBody parseISO8601 result out.ud
      else (.ok ("", "", "", 0), out.ud)
    match parseStep with
    | (.error e, ud) => (.error e, ud)
    | (.ok (transaction_id, authorization, transaction_type, server_expiry), ud) =>
      if result.status == kHTTPStatusOK then
        if transaction_type ≠ "expiring-purchase" then
          (.error ("response contained incorrect TransactionResponse.Type; want expiring-purchase, got "
                   ++ transaction_type), ud)
        else if transaction_id = "" then
          (.error "response did not provide valid TransactionID", ud)
        else if server_expiry = 0 then
          (.error "response did not provide valid TransactionResponse.Values.Expires", ud)
        else
          let purchase : Purchase :=
            { id := transaction_id
              transaction_class := transaction_class
              distinguisher := distinguisher
              authorization := some authorization
              server_time_expiry := some server_expiry
              local_time_expiry := none }
          let ud := ud.AddPurchase purchase
          (.ok { status := .Success, purchase := some purchase }, ud)
      else if result.status == kHTTPStatusTooManyRequests then
        (.ok { status := .ExistingTransaction, purchase := none }, ud)
      else if result.status == kHTTPStatusPaymentRequired then
        (.ok { status := .InsufficientBalance, purchase := none }, ud)
      else if result.status == kHTTPStatusConflict then
        (.ok { status := .TransactionAmountMismatch, purchase := none }, ud)
      else if result.status == kHTTPStatusNotFound then
        (.ok { status := .TransactionTypeNotFound, purchase := none }, ud)
      else if result.status == kHTTPStatusUnauthorized then
        (.ok { status := .InvalidTokens, purchase := none }, ud)
      else if result.status == kHTTPStatusInternalServerError then
        (.ok { status := .ServerError, purchase := none }, ud)
      else
        (.error ("request returned unexpected status code: " ++ toString result.status), ud)

/-! Concrete fixtures used by counterexamples and witnesses. -/

/-- A store holding nothing. -/
def udEmpty : UserData :=
  { auth_tokens := [], is_account := false, balance := 0, purchases := [],
    metadata := [], server_time_diff := 0 }

/-- A store holding only a spender token, and no earner token. -/
def udSpenderOnly : UserData :=
  { udEmpty with auth_tokens := [("spender", "spender-token")] }

/-- A body parser that always fails (json::parse always throws). -/
def pbNone : String → Option TransactionBody := fun _ => none

/-- An ISO8601 parser that always fails. -/
def isoNone : String → Option Nat := fun _ => none

/-- An RFC7231 date parser that always fails. -/
def rfcNone : String → Option Int := fun _ => none

/-- Transport double for the C3 counterexample: every attempt yields a parsed
envelope with status -1 and no error string. -/
def tNeg1 : Nat → TransportReturn := fun _ => .parsed (-1) none none none

/-- Transport double whose first envelope carries a non-empty error string. -/
def tErrBoom : Nat → TransportReturn := fun _ => .parsed 200 none none (some "boom")

/-- Transport double for the C10 witness: a 503 with body and date, then a 204
without either. -/
def tCarry : Nat → TransportReturn := fun i =>
  if i = 0 then .parsed 503 (some "B1") (some "D1") none
  else .parsed 204 none none none

/-- Transport double that always reports status 200 with body string BODY. -/
def t200 : Nat → TransportReturn := fun _ => .parsed 200 (some "BODY") none none

/-- Parsed transaction body for the C2 counterexample: integer Balance 100, a
transaction id, but the wrong TransactionResponse.Type. -/
def bodyOther : TransactionBody :=
  { Balance := some 100, TransactionID := some "abc", Authorization := none,
    TransactionResponse_Type := some "other",
    TransactionResponse_Values_Expires := some "2030-01-01T00:00:00Z" }

/-- A body parser recognizing only the string BODY, as bodyOther. -/
def pbOther : String → Option TransactionBody := fun s =>
  if s = "BODY" then some bodyOther else none

/-- An ISO8601 parser mapping every string to the instant 5. -/
def iso5 : String → Option Nat := fun _ => some 5

/-- Parsed transaction body satisfying all three mandatory status-200
conditions. -/
def bodyGood : TransactionBody :=
  { Balance := some 100, TransactionID := some "abc", Authorization := none,
    TransactionResponse_Type := some "expiring-purchase",
    TransactionResponse_Values_Expires := some "2030-01-01T00:00:00Z" }

/-- A body parser recognizing only the string BODY, as bodyGood. -/
def pbGood : String → Option TransactionBody := fun s =>
  if s = "BODY" then some bodyGood else none

/-- The Purchase record built on the Success path of NewExpiringPurchase
(src/psicash.cpp lines 524-530): authorization and server expiry are engaged
optionals, local_time_expiry is unset. -/
def mkPurchase (tid cls dist auth : String) (texp : Nat) : Purchase :=
  { id := tid, transaction_class := cls, distinguisher := dist,
    authorization := some auth, server_time_expiry := some texp,
    local_time_expiry := none }

/-- The three mandatory status-200 conditions named by the claims: the body
carries TransactionResponse.Type equal to expiring-purchase, a non-empty
TransactionID, and a TransactionResponse.Values.Expires string that parses to a
non-zero timestamp. -/
def mandatory200 (parseISO8601 : String → Option Nat) (j : TransactionBody) : Prop :=
  j.TransactionResponse_Type = some "expiring-purchase" ∧
  (∃ tid, j.TransactionID = some tid ∧ tid ≠ "") ∧
  (∃ s t, j.TransactionResponse_Values_Expires = some s ∧
    parseISO8601 s = some t ∧ t ≠ 0)

/-! Helper lemmas about the retry loop. -/

/-- The retry loop never touches the sleeps accumulator: the guard of the wait
branch compares a nonnegative loop index against zero. -/
theorem retryGo_sleeps_eq (t : Nat → TransportReturn) (pR : String → Option Int)
    (now : Int) :
    ∀ (rem i : Nat) (acc : HTTPResult) (ud : UserData) (sl : List Nat),
      (retryGo t pR now rem i acc ud sl).sleeps = sl := by
  intro rem
  induction rem with
  | zero => intro i acc ud sl; rfl
  | succ r ih =>
    intro i acc ud sl
    have hg : sleepGuard i = false :=
      decide_eq_false (not_lt.mpr (Int.natCast_nonneg i))
    simp only [retryGo, hg, Bool.false_eq_true, if_false]
    cases t i with
    | empty => rfl
    | malformed => rfl
    | parsed st b d e =>
      simp only []
      split
      · rfl
      · split
        · rfl
        · split
          · exact ih _ _ _ _
          · rfl

/-- The status assigned by applyEnvelope is the envelope status. -/
theorem applyEnvelope_status (acc : HTTPResult) (st : Int) (b d e : Option String) :
    (applyEnvelope acc st b d e).status = st := rfl

/-- The retry loop performs at most i + remaining attempts in total. -/
theorem retryGo_attempts_le (t : Nat → TransportReturn) (pR : String → Option Int)
    (now : Int) :
    ∀ (rem i : Nat) (acc : HTTPResult) (ud : UserData) (sl : List Nat),
      (retryGo t pR now rem i acc ud sl).attempts ≤ i + rem := by
  intro rem
  induction rem with
  | zero => intro i acc ud sl; simp [retryGo]
  | succ r ih =>
    intro i acc ud sl
    simp only [retryGo]
    cases t i with
    | empty => simp
    | malformed => simp
    | parsed st b d e =>
      simp only []
      split
      · simp
      · split
        · simp
        · split
          · exact le_trans (ih _ _ _ _) (by omega)
          · simp

/-- The retry loop touches no persisted field other than the clock skew. -/
theorem updateServerTimeDiff_frame (pR : String → Option Int) (now : Int)
    (date : String) (ud : UserData) :
    (updateServerTimeDiff pR now date ud).purchases = ud.purchases ∧
    (updateServerTimeDiff pR now date ud).balance = ud.balance ∧
    (updateServerTimeDiff pR now date ud).auth_tokens = ud.auth_tokens := by
  unfold updateServerTimeDiff
  split
  · exact ⟨rfl, rfl, rfl⟩
  · cases h : pR date <;> simp [h]

/-- The whole retry loop preserves purchases, balance and auth tokens. -/
theorem retryGo_store_frame (t : Nat → TransportReturn) (pR : String → Option Int)
    (now : Int) :
    ∀ (rem i : Nat) (acc : HTTPResult) (ud : UserData) (sl : List Nat),
      (retryGo t pR now rem i acc ud sl).ud.purchases = ud.purchases ∧
      (retryGo t pR now rem i acc ud sl).ud.balance = ud.balance ∧
      (retryGo t pR now rem i acc ud sl).ud.auth_tokens = ud.auth_tokens := by
  intro rem
  induction rem with
  | zero => intro i acc ud sl; exact ⟨rfl, rfl, rfl⟩
  | succ r ih =>
    intro i acc ud sl
    simp only [retryGo]
    cases t i with
    | empty => exact ⟨rfl, rfl, rfl⟩
    | malformed => exact ⟨rfl, rfl, rfl⟩
    | parsed st b d e =>
      simp only []
      split
      · exact ⟨rfl, rfl, rfl⟩
      · have hu := updateServerTimeDiff_frame pR now (applyEnvelope acc st b d e).date ud
        split
        · exact hu
        · split
          · have hr := ih (i + 1) (applyEnvelope acc st b d e)
              (updateServerTimeDiff pR now (applyEnvelope acc st b d e).date ud) sl
            exact ⟨hr.1.trans hu.1, hr.2.1.trans hu.2.1, hr.2.2.trans hu.2.2⟩
          · exact hu

/-- Claim C9 counterexample: two purchases that differ only in their
server-issued id compare equal under the embedded operator==, refuting the
claim that id participates in the comparison (so that such purchases would
compare unequal). -/
theorem c9_id_ignored_counterexample :
    purchaseEq
      { id := "txn-1", transaction_class := "speed-boost", distinguisher := "1hr",
        authorization := none, server_time_expiry := some 10, local_time_expiry := none }
      { id := "txn-2", transaction_class := "speed-boost", distinguisher := "1hr",
        authorization := none, server_time_expiry := some 10, local_time_expiry := none }
      = true := by
  decide

/-- Claim C9 (amended): Purchase equality compares exactly transaction_class,
distinguisher, server_time_expiry and authorization; it ignores both
local_time_expiry and the server-issued id, so two purchases that differ only
in id compare equal. -/
theorem c9_purchase_equality_fields (p q : Purchase) :
    purchaseEq p q = true ↔
      (p.transaction_class = q.transaction_class ∧
       p.distinguisher = q.distinguisher ∧
       p.server_time_expiry = q.server_time_expiry ∧
       p.authorization = q.authorization) := by
  simp [purchaseEq, Bool.and_eq_true, beq_iff_eq, and_assoc]

/-- Claim C4: code bug. With a store holding a spender token but no earner
token, GetRewardedActivityData does not fail as the claim (and the comment in
the source itself) requires: the emptiness check only tests the whole token
mapping, so the call succeeds and builds the payload with an empty earner
token. -/
theorem c4_no_earner_token_eval :
    GetRewardedActivityData udSpenderOnly =
      .ok { v := 1, tokens := "", metadata := [] } := by
  rfl

/-- Claim C6: the inter-attempt wait branch is unreachable. For every attempt
index below the attempt budget the sleep guard is false, and consequently every
execution of MakeHTTPRequestWithRetry performs no sleep at all. -/
theorem c6_sleep_branch_unreachable (i : Nat) (hi : i < maxAttempts) :
    sleepGuard i = false ∧
    ∀ (t : Nat → TransportReturn) (pR : String → Option Int) (now : Int)
      (ud : UserData), (MakeHTTPRequestWithRetry t pR now ud).sleeps = [] := by
  refine ⟨decide_eq_false (not_lt.mpr (Int.natCast_nonneg i)), ?_⟩
  intro t pR now ud
  exact retryGo_sleeps_eq t pR now maxAttempts 0 HTTPResult.init ud []

/-- Witness for claim C6 at attempt index 0 and a concrete transport. -/
theorem c6_sleep_branch_unreachable_witness :
    sleepGuard 0 = false ∧
    (MakeHTTPRequestWithRetry (fun _ => .empty) rfcNone 0 udEmpty).sleeps = [] :=
  ⟨(c6_sleep_branch_unreachable 0 (by decide)).1,
   (c6_sleep_branch_unreachable 0 (by decide)).2 (fun _ => .empty) rfcNone 0 udEmpty⟩

/-- Claim C8: ExpirePurchases at a given local clock instant is a stable
partition. The returned list is exactly the expired purchases (local_time_expiry
present and strictly earlier than local now) in their original order, the
persisted list is exactly the remaining purchases in their original order
(including every purchase lacking local_time_expiry), the two parts together are
a permutation of the original list (equality as sets), membership in the
expired part is exactly original membership plus expiredness, and re-invoking at
the same instant on the persisted result returns no expired purchases. -/
theorem c8_expire_purchases_partition (local_now : Nat) (ud : UserData) :
    (ExpirePurchases local_now ud).1 = ud.purchases.filter (IsExpired local_now) ∧
    (ExpirePurchases local_now ud).2.purchases
      = ud.purchases.filter (fun p => !IsExpired local_now p) ∧
    ((ExpirePurchases local_now ud).2.purchases ++ (ExpirePurchases local_now ud).1).Perm
      ud.purchases ∧
    (∀ p : Purchase, p ∈ (ExpirePurchases local_now ud).1 ↔
       (p ∈ ud.purchases ∧ IsExpired local_now p = true)) ∧
    (ExpirePurchases local_now (ExpirePurchases local_now ud).2).1 = [] := by
  refine ⟨?_, ?_, ?_, ?_, ?_⟩
  · simp [ExpirePurchases, List.partition_eq_filter_filter]
  · simp only [ExpirePurchases, UserData.SetPurchases, List.partition_eq_filter_filter]
    rfl
  · simp only [ExpirePurchases, UserData.SetPurchases, List.partition_eq_filter_filter]
    exact List.perm_append_comm.trans (List.filter_append_perm _ _)
  · intro p
    simp [ExpirePurchases, List.partition_eq_filter_filter, List.mem_filter]
  · simp [ExpirePurchases, UserData.SetPurchases, List.partition_eq_filter_filter,
          List.filter_filter]

/-! Helper lemmas for NextExpiringPurchase (claim C7). -/

/-- find? on a cons cell whose head satisfies the predicate, with the predicate
explicit (so rewriting needs no higher-order unification). -/
theorem find?_consPos (pred : Purchase → Bool) (a : Purchase) (l : List Purchase)
    (h : pred a = true) : List.find? pred (a :: l) = some a :=
  List.find?_cons_of_pos l h

/-- find? on a cons cell whose head fails the predicate, with the predicate
explicit. -/
theorem find?_consNeg (pred : Purchase → Bool) (a : Purchase) (l : List Purchase)
    (h : ¬ pred a = true) : List.find? pred (a :: l) = List.find? pred l :=
  List.find?_cons_of_neg l h

/-- The minimum of a nonempty list is at most its head. -/
theorem listMin_le_head (x : Nat) (xs : List Nat) (m : Nat)
    (h : listMin (x :: xs) = some m) : m ≤ x := by
  simp only [listMin, Option.some.injEq] at h
  cases hx : listMin xs with
  | none => rw [hx] at h; simp only [minD] at h; omega
  | some mm => rw [hx] at h; simp only [minD] at h; exact h ▸ Nat.min_le_left x mm

/-- specNextExpiring when no purchase has a server expiry. -/
theorem specNext_of_min_none (l : List Purchase)
    (h : listMin (l.filterMap fun q => q.server_time_expiry) = none) :
    specNextExpiring l = none := by
  simp only [specNextExpiring, h, findMinExpiry]

/-- specNextExpiring when the minimum server expiry is known. -/
theorem specNext_of_min_some (l : List Purchase) (m : Nat)
    (h : listMin (l.filterMap fun q => q.server_time_expiry) = some m) :
    specNextExpiring l = l.find? (fun p => p.server_time_expiry == some m) := by
  simp only [specNextExpiring, h, findMinExpiry]

/-- Dropping a leading purchase without server expiry does not change the
spec-level next expiring purchase. -/
theorem specNext_cons_none (p : Purchase) (l : List Purchase)
    (hp : p.server_time_expiry = none) :
    specNextExpiring (p :: l) = specNextExpiring l := by
  have hfm : (p :: l).filterMap (fun q => q.server_time_expiry)
      = l.filterMap (fun q => q.server_time_expiry) := List.filterMap_cons_none hp
  cases hm : listMin (l.filterMap fun q => q.server_time_expiry) with
  | none =>
    rw [specNext_of_min_none l hm, specNext_of_min_none (p :: l) (by rw [hfm]; exact hm)]
  | some m =>
    rw [specNext_of_min_some l m hm,
        specNext_of_min_some (p :: l) m (by rw [hfm]; exact hm)]
    exact List.find?_cons_of_neg _ (by simp [hp])

/-- Dropping a second-position purchase without server expiry does not change
the spec-level next expiring purchase. -/
theorem specNext_cons_cons_none (n p : Purchase) (l : List Purchase)
    (hp : p.server_time_expiry = none) :
    specNextExpiring (n :: p :: l) = specNextExpiring (n :: l) := by
  have hfm : (n :: p :: l).filterMap (fun q => q.server_time_expiry)
      = (n :: l).filterMap (fun q => q.server_time_expiry) := by
    simp [List.filterMap_cons, hp]
  cases hm : listMin ((n :: l).filterMap fun q => q.server_time_expiry) with
  | none =>
    rw [specNext_of_min_none _ hm,
        specNext_of_min_none (n :: p :: l) (by rw [hfm]; exact hm)]
  | some m =>
    rw [specNext_of_min_some _ m hm,
        specNext_of_min_some (n :: p :: l) m (by rw [hfm]; exact hm)]
    by_cases hqn : (n.server_time_expiry == some m) = true
    · rw [find?_consPos (fun q => q.server_time_expiry == some m) n (p :: l) hqn,
          find?_consPos (fun q => q.server_time_expiry == some m) n l hqn]
    · rw [find?_consNeg (fun q => q.server_time_expiry == some m) n (p :: l) hqn,
          find?_consNeg (fun q => q.server_time_expiry == some m) p l (by simp [hp]),
          find?_consNeg (fun q => q.server_time_expiry == some m) n l hqn]

/-- When the head has a strictly larger server expiry than the second purchase,
the head can be dropped from the spec-level computation. -/
theorem specNext_drop_head_of_lt (n p : Purchase) (l : List Purchase) (en e : Nat)
    (hn : n.server_time_expiry = some en) (hp : p.server_time_expiry = some e)
    (hlt : e < en) :
    specNextExpiring (n :: p :: l) = specNextExpiring (p :: l) := by
  have hfm1 : (n :: p :: l).filterMap (fun q => q.server_time_expiry)
      = en :: e :: l.filterMap (fun q => q.server_time_expiry) := by
    rw [List.filterMap_cons_some hn, List.filterMap_cons_some hp]
  have hfm2 : (p :: l).filterMap (fun q => q.server_time_expiry)
      = e :: l.filterMap (fun q => q.server_time_expiry) :=
    List.filterMap_cons_some hp
  obtain ⟨m2, hm2⟩ : ∃ m2,
      listMin (e :: l.filterMap fun q => q.server_time_expiry) = some m2 :=
    ⟨_, rfl⟩
  have hm2e : m2 ≤ e := listMin_le_head _ _ _ hm2
  have hmin1 : listMin (en :: e :: l.filterMap fun q => q.server_time_expiry)
      = some m2 := by
    have hstep : listMin (en :: e :: l.filterMap fun q => q.server_time_expiry)
        = some (minD en (listMin (e :: l.filterMap fun q => q.server_time_expiry))) :=
      rfl
    rw [hstep, hm2]
    simp only [minD, Option.some.injEq]
    exact Nat.min_eq_right (by omega)
  rw [specNext_of_min_some (n :: p :: l) m2 (by rw [hfm1]; exact hmin1),
      specNext_of_min_some (p :: l) m2 (by rw [hfm2]; exact hm2)]
  exact List.find?_cons_of_neg _ (by simp [hn]; omega)

/-- When the head has a server expiry no larger than the second purchase, the
second purchase can be dropped from the spec-level computation. -/
theorem specNext_drop_second_of_ge (n p : Purchase) (l : List Purchase) (en e : Nat)
    (hn : n.server_time_expiry = some en) (hp : p.server_time_expiry = some e)
    (hge : en ≤ e) :
    specNextExpiring (n :: p :: l) = specNextExpiring (n :: l) := by
  have hfm1 : (n :: p :: l).filterMap (fun q => q.server_time_expiry)
      = en :: e :: l.filterMap (fun q => q.server_time_expiry) := by
    rw [List.filterMap_cons_some hn, List.filterMap_cons_some hp]
  have hfm2 : (n :: l).filterMap (fun q => q.server_time_expiry)
      = en :: l.filterMap (fun q => q.server_time_expiry) :=
    List.filterMap_cons_some hn
  have hstep2 : listMin (e :: l.filterMap fun q => q.server_time_expiry)
      = some (minD e (listMin (l.filterMap fun q => q.server_time_expiry))) := rfl
  have hstep1 : listMin (en :: e :: l.filterMap fun q => q.server_time_expiry)
      = some (minD en (listMin (e :: l.filterMap fun q => q.server_time_expiry))) :=
    rfl
  have hstep0 : listMin (en :: l.filterMap fun q => q.server_time_expiry)
      = some (minD en (listMin (l.filterMap fun q => q.server_time_expiry))) := rfl
  cases hE : listMin (l.filterMap fun q => q.server_time_expiry) with
  | none =>
    have hmin1 : listMin (en :: e :: l.filterMap fun q => q.server_time_expiry)
        = some en := by
      rw [hstep1, hstep2, hE]
      simp only [minD, Option.some.injEq]
      exact Nat.min_eq_left hge
    have hmin2 : listMin (en :: l.filterMap fun q => q.server_time_expiry)
        = some en := by
      rw [hstep0, hE]
      rfl
    rw [specNext_of_min_some _ en (by rw [hfm1]; exact hmin1),
        specNext_of_min_some _ en (by rw [hfm2]; exact hmin2)]
    have hqn : (n.server_time_expiry == some en) = true := by simp [hn]
    rw [find?_consPos (fun q => q.server_time_expiry == some en) n (p :: l) hqn,
        find?_consPos (fun q => q.server_time_expiry == some en) n l hqn]
  | some mE =>
    obtain ⟨M, hM⟩ : ∃ M, min en mE = M := ⟨_, rfl⟩
    have hmin1 : listMin (en :: e :: l.filterMap fun q => q.server_time_expiry)
        = some M := by
      rw [hstep1, hstep2, hE]
      simp only [minD, Option.some.injEq]
      rw [← Nat.min_assoc, Nat.min_eq_left hge, hM]
    have hmin2 : listMin (en :: l.filterMap fun q => q.server_time_expiry)
        = some M := by
      rw [hstep0, hE]
      simp only [minD, Option.some.injEq]
      exact hM
    have hle : M ≤ en := hM ▸ Nat.min_le_left en mE
    rw [specNext_of_min_some _ M (by rw [hfm1]; exact hmin1),
        specNext_of_min_some _ M (by rw [hfm2]; exact hmin2)]
    by_cases hqn : (n.server_time_expiry == some M) = true
    · rw [find?_consPos (fun q => q.server_time_expiry == some M) n (p :: l) hqn,
          find?_consPos (fun q => q.server_time_expiry == some M) n l hqn]
    · have hqp : ¬((p.server_time_expiry == some M) = true) := by
        simp only [hn, Option.some_beq_some, beq_iff_eq] at hqn
        simp only [hp, Option.some_beq_some, beq_iff_eq]
        omega
      rw [find?_consNeg (fun q => q.server_time_expiry == some M) n (p :: l) hqn,
          find?_consNeg (fun q => q.server_time_expiry == some M) p l hqp,
          find?_consNeg (fun q => q.server_time_expiry == some M) n l hqn]

/-- The loop of NextExpiringPurchase carrying a current candidate computes the
spec-level answer for the candidate followed by the remaining purchases. -/
theorem nextLoop_some_spec : ∀ (l : List Purchase) (n : Purchase) (en : Nat),
    n.server_time_expiry = some en →
    nextLoop (some n) l = specNextExpiring (n :: l) := by
  intro l
  induction l with
  | nil =>
    intro n en hn
    have hfm : ([n] : List Purchase).filterMap (fun q => q.server_time_expiry)
        = [en] := by
      rw [List.filterMap_cons_some hn, List.filterMap_nil]
    have hmin : listMin [en] = some en := rfl
    rw [specNext_of_min_some [n] en (by rw [hfm]; exact hmin),
        List.find?_cons_of_pos _ (by simp [hn])]
    rfl
  | cons p rest ih =>
    intro n en hn
    cases hp : p.server_time_expiry with
    | none =>
      have h1 : nextLoop (some n) (p :: rest) = nextLoop (some n) rest := by
        simp [nextLoop, hp]
      rw [h1, ih n en hn, specNext_cons_cons_none n p rest hp]
    | some e =>
      by_cases hlt : e < en
      · have h1 : nextLoop (some n) (p :: rest) = nextLoop (some p) rest := by
          simp [nextLoop, hp, hn, optLt, hlt]
        rw [h1, ih p e hp, specNext_drop_head_of_lt n p rest en e hn hp hlt]
      · have h1 : nextLoop (some n) (p :: rest) = nextLoop (some n) rest := by
          simp [nextLoop, hp, hn, optLt, hlt]
        rw [h1, ih n en hn,
            specNext_drop_second_of_ge n p rest en e hn hp (by omega)]

/-- The loop of NextExpiringPurchase starting with no candidate computes the
spec-level answer. -/
theorem nextLoop_none_spec : ∀ l : List Purchase,
    nextLoop none l = specNextExpiring l := by
  intro l
  induction l with
  | nil => rfl
  | cons p rest ih =>
    cases hp : p.server_time_expiry with
    | none =>
      have h1 : nextLoop none (p :: rest) = nextLoop none rest := by
        simp [nextLoop, hp]
      rw [h1, ih, specNext_cons_none p rest hp]
    | some e =>
      have h1 : nextLoop none (p :: rest) = nextLoop (some p) rest := by
        simp [nextLoop, hp]
      rw [h1, nextLoop_some_spec rest p e hp]

/-- Claim C7: NextExpiringPurchase returns exactly the spec-level answer: among
the stored purchases having a server_time_expiry it returns the first one
attaining the earliest such expiry (ties broken by encounter order), purchases
without server_time_expiry are excluded entirely regardless of
local_time_expiry, and it returns none when no purchase has a
server_time_expiry. -/
theorem c7_next_expiring_purchase (ud : UserData) :
    NextExpiringPurchase ud = specNextExpiring ud.purchases :=
  nextLoop_none_spec ud.purchases

/-- Claim C3 counterexample: an attempt whose parsed status is -1 (which is
below 500) with an empty error string is not returned as a result at all; the
call terminates with a fatal error instead, contradicting the claim that every
attempt with parsed status below 500 is returned immediately. -/
theorem c3_status_minus1_counterexample :
    (MakeHTTPRequestWithRetry tNeg1 rfcNone 0 udEmpty).result
      = .error "HTTP result status is -1 but no error message provided" := by
  rfl

/-- Claim C3 (amended): the retry loop makes at most 3 attempts; an exhausted
loop returns the accumulated last failing result as a success value; and for an
attempt performed with budget left and a clean accumulator:
a non-empty error string in the folded envelope terminates the call at once
with a fatal error; a parsed status -1 with empty error terminates at once with
a fatal inconsistency error (the one exception to returning sub-500 statuses);
a parsed status of at least 500 with empty error continues the loop with the
folded accumulator; and any other parsed status below 500 with empty error is
returned immediately as the result. -/
theorem c3_retry_classification (t : Nat → TransportReturn)
    (pR : String → Option Int) (now : Int) :
    (∀ ud : UserData, (MakeHTTPRequestWithRetry t pR now ud).attempts ≤ maxAttempts) ∧
    (∀ (i : Nat) (acc : HTTPResult) (ud : UserData) (sl : List Nat),
      retryGo t pR now 0 i acc ud sl = ⟨.ok acc, ud, i, sl⟩) ∧
    (∀ (r i : Nat) (acc : HTTPResult) (ud : UserData) (sl : List Nat)
       (st : Int) (b d e : Option String),
      acc.error = "" → t i = .parsed st b d e →
      (((applyEnvelope acc st b d e).error ≠ "" →
        (retryGo t pR now (r + 1) i acc ud sl).result
            = .error ("Request resulted in error: " ++ (applyEnvelope acc st b d e).error) ∧
        (retryGo t pR now (r + 1) i acc ud sl).attempts = i + 1) ∧
      ((applyEnvelope acc st b d e).error = "" → st = -1 →
        (retryGo t pR now (r + 1) i acc ud sl).result
            = .error "HTTP result status is -1 but no error message provided" ∧
        (retryGo t pR now (r + 1) i acc ud sl).attempts = i + 1) ∧
      ((applyEnvelope acc st b d e).error = "" → st ≥ 500 →
        retryGo t pR now (r + 1) i acc ud sl
          = retryGo t pR now r (i + 1) (applyEnvelope acc st b d e)
              (updateServerTimeDiff pR now (applyEnvelope acc st b d e).date ud) sl) ∧
      ((applyEnvelope acc st b d e).error = "" → st ≠ -1 → st < 500 →
        (retryGo t pR now (r + 1) i acc ud sl).result
            = .ok (applyEnvelope acc st b d e) ∧
        (retryGo t pR now (r + 1) i acc ud sl).attempts = i + 1))) := by
  refine ⟨?_, ?_, ?_⟩
  · intro ud
    exact (retryGo_attempts_le t pR now maxAttempts 0 HTTPResult.init ud []).trans
      (by omega)
  · intro i acc ud sl
    rfl
  · intro r i acc ud sl st b d e hacc ht
    have hg : sleepGuard i = false :=
      decide_eq_false (not_lt.mpr (Int.natCast_nonneg i))
    refine ⟨?_, ?_, ?_, ?_⟩
    · intro herr
      have hand : ((applyEnvelope acc st b d e).status == -1 &&
          (applyEnvelope acc st b d e).error == "") = false := by
        simp [herr]
      constructor <;>
        simp [retryGo, hg, ht, hand, herr]
    · intro herr hst
      subst hst
      constructor <;>
        simp [retryGo, hg, ht, applyEnvelope_status, herr]
    · intro herr hst
      have hne : st ≠ -1 := by omega
      simp [retryGo, hg, ht, applyEnvelope_status, herr, hne, hst]
    · intro herr hst1 hst2
      have hnge : ¬(st ≥ 500) := by omega
      constructor <;>
        simp [retryGo, hg, ht, applyEnvelope_status, herr, hst1, hnge]

/-- Witness for claim C3 at a concrete envelope with a non-empty error string. -/
theorem c3_retry_classification_witness :
    (retryGo tErrBoom rfcNone 0 3 0 HTTPResult.init udEmpty []).result
        = .error ("Request resulted in error: "
                  ++ (applyEnvelope HTTPResult.init 200 none none (some "boom")).error) ∧
    (retryGo tErrBoom rfcNone 0 3 0 HTTPResult.init udEmpty []).attempts = 0 + 1 :=
  ((c3_retry_classification tErrBoom rfcNone 0).2.2 2 0 HTTPResult.init udEmpty []
      200 none none (some "boom") rfl rfl).1 (by decide)

/-- Claim C10: the HTTPResult accumulator is reused across attempts. When a
first attempt with status 503 (retried) supplies body and date strings and the
envelope of the second attempt omits both, the returned result still carries
the body and date of the first attempt together with the status of the second:
final result is not a function of the final envelope alone. -/
theorem c10_accumulator_carries_fields (t : Nat → TransportReturn)
    (pR : String → Option Int) (now : Int) (ud : UserData)
    (b d : String) (st2 : Int)
    (h0 : t 0 = .parsed 503 (some b) (some d) none)
    (h1 : t 1 = .parsed st2 none none none)
    (h2 : st2 < 500) (h3 : st2 ≠ -1) :
    (MakeHTTPRequestWithRetry t pR now ud).result
      = .ok { status := st2, body := b, date := d, error := "" } := by
  have hg0 : sleepGuard 0 = false := by decide
  have hg1 : sleepGuard 1 = false := by decide
  have hnge : ¬(st2 ≥ 500) := by omega
  show (retryGo t pR now 3 0 HTTPResult.init ud []).result = _
  rw [show (3 : Nat) = 2 + 1 from rfl]
  simp only [retryGo, hg0, Bool.false_eq_true, if_false, h0]
  simp [retryGo, hg1, h1, applyEnvelope, h3, hnge, HTTPResult.init]

/-- Witness for claim C10 at a concrete envelope sequence. -/
theorem c10_accumulator_carries_fields_witness :
    (MakeHTTPRequestWithRetry tCarry rfcNone 0 udEmpty).result
      = .ok { status := 204, body := "B1", date := "D1", error := "" } :=
  c10_accumulator_carries_fields tCarry rfcNone 0 udEmpty "B1" "D1" 204
    rfl rfl (by decide) (by decide)

/-- Claim C5: code bug. NewExpiringPurchase does not leave the persisted auth
tokens unchanged: its first action overwrites them wholesale with the hardcoded
debug triple from the source (marked TEMP there), so a store that held no
tokens ends the call holding the three hardcoded ones. -/
theorem c5_hardcoded_tokens_eval :
    (NewExpiringPurchase (fun _ => .empty) pbNone isoNone rfcNone 0
        "speed-boost" "1hr" 100 udEmpty).2.auth_tokens = hardTokens ∧
    udEmpty.auth_tokens = [] :=
  ⟨rfl, rfl⟩

/-- Store frame of the whole retry call: purchases, balance and auth tokens are
untouched. -/
theorem MakeHTTPRequestWithRetry_store_frame (t : Nat → TransportReturn)
    (pR : String → Option Int) (now : Int) (ud : UserData) :
    (MakeHTTPRequestWithRetry t pR now ud).ud.purchases = ud.purchases ∧
    (MakeHTTPRequestWithRetry t pR now ud).ud.balance = ud.balance ∧
    (MakeHTTPRequestWithRetry t pR now ud).ud.auth_tokens = ud.auth_tokens :=
  retryGo_store_frame t pR now maxAttempts 0 HTTPResult.init ud []

/-- Shared analysis for claims C1 and C2: a status-200 terminal result whose
parsed body fails one of the three mandatory conditions makes
NewExpiringPurchase fail with some fatal error, leaving the store exactly as
the balance write left it (balance set when the body carried one, purchases
untouched). -/
theorem nep200_validation_failure
    (transport : Nat → TransportReturn) (pb : String → Option TransactionBody)
    (piso : String → Option Nat) (pR : String → Option Int) (now : Int)
    (cls dist : String) (price : Int) (ud : UserData)
    (r : HTTPResult) (ud1 : UserData) (n : Nat) (sl : List Nat)
    (j : TransactionBody)
    (hrun : MakeHTTPRequestWithRetry transport pR now (ud.SetAuthTokens hardTokens false)
        = ⟨.ok r, ud1, n, sl⟩)
    (hst : r.status = 200)
    (hb : r.body ≠ "")
    (hj : pb r.body = some j)
    (hfail : ¬ mandatory200 piso j) :
    ∃ msg, NewExpiringPurchase transport pb piso pR now cls dist price ud
      = (.error msg,
         match j.Balance with
         | some b => UserData.SetBalance ud1 b
         | none => ud1) := by
  simp only [NewExpiringPurchase, hrun, parsePurchaseBody, hb, hj]
  simp only [hst, kHTTPStatusOK, kHTTPStatusTooManyRequests, kHTTPStatusPaymentRequired,
    kHTTPStatusConflict]
  cases hexp : j.TransactionResponse_Values_Expires with
  | none =>
    by_cases htt : j.TransactionResponse_Type.getD "" = "expiring-purchase"
    · by_cases htid : j.TransactionID.getD "" = ""
      · exact ⟨"response did not provide valid TransactionID", by simp [htt, htid]⟩
      · exact ⟨"response did not provide valid TransactionResponse.Values.Expires",
          by simp [htt, htid]⟩
    · exact ⟨"response contained incorrect TransactionResponse.Type; want expiring-purchase, got "
          ++ j.TransactionResponse_Type.getD "", by simp [htt]⟩
  | some s =>
    cases hps : piso s with
    | none =>
      exact ⟨"failed to parse TransactionResponse.Values.Expires; got " ++ s, by simp [hps]⟩
    | some texp =>
      by_cases htt : j.TransactionResponse_Type.getD "" = "expiring-purchase"
      · by_cases htid : j.TransactionID.getD "" = ""
        · exact ⟨"response did not provide valid TransactionID", by simp [hps, htt, htid]⟩
        · by_cases htexp : texp = 0
          · exact ⟨"response did not provide valid TransactionResponse.Values.Expires",
              by simp [hps, htt, htid, htexp]⟩
          · exfalso
            apply hfail
            refine ⟨?_, ?_, s, texp, hexp, hps, htexp⟩
            · cases hty : j.TransactionResponse_Type with
              | none => rw [hty] at htt; simp at htt
              | some v => rw [hty] at htt; simp at htt; rw [htt]
            · cases hti : j.TransactionID with
              | none => rw [hti] at htid; simp at htid
              | some v =>
                rw [hti] at htid
                simp only [Option.getD_some] at htid
                exact ⟨v, rfl, htid⟩
      · exact ⟨"response contained incorrect TransactionResponse.Type; want expiring-purchase, got "
            ++ j.TransactionResponse_Type.getD "", by simp [hps, htt]⟩

/-- Claim C1: for a call whose terminal HTTP result has status 200, the call
returns the typed Success outcome with a populated purchase, whose id is the
body TransactionID and which is appended to the stored purchase list, exactly
when the three mandatory conditions hold (type tag expiring-purchase, non-empty
TransactionID, Expires parsing to a non-zero timestamp); when the body is
missing, unparsable, or fails any mandatory condition, the call returns a fatal
error instead of any typed outcome. -/
theorem c1_status200_mandatory_fields
    (transport : Nat → TransportReturn) (pb : String → Option TransactionBody)
    (piso : String → Option Nat) (pR : String → Option Int) (now : Int)
    (cls dist : String) (price : Int) (ud : UserData)
    (r : HTTPResult) (ud1 : UserData) (n : Nat) (sl : List Nat)
    (hrun : MakeHTTPRequestWithRetry transport pR now (ud.SetAuthTokens hardTokens false)
        = ⟨.ok r, ud1, n, sl⟩)
    (hst : r.status = 200) :
    (r.body = "" →
      ∃ msg, (NewExpiringPurchase transport pb piso pR now cls dist price ud).1
          = .error msg) ∧
    (r.body ≠ "" → pb r.body = none →
      ∃ msg, (NewExpiringPurchase transport pb piso pR now cls dist price ud).1
          = .error msg) ∧
    (∀ j tid s texp, r.body ≠ "" → pb r.body = some j →
      j.TransactionResponse_Type = some "expiring-purchase" →
      j.TransactionID = some tid → tid ≠ "" →
      j.TransactionResponse_Values_Expires = some s →
      piso s = some texp → texp ≠ 0 →
      ∃ P ud2, NewExpiringPurchase transport pb piso pR now cls dist price ud
          = (Except.ok { status := .Success, purchase := some P }, ud2) ∧
        P.id = tid ∧ ud2.purchases = ud.purchases ++ [P]) ∧
    (∀ j, r.body ≠ "" → pb r.body = some j → ¬ mandatory200 piso j →
      ∃ msg, (NewExpiringPurchase transport pb piso pR now cls dist price ud).1
          = .error msg) := by
  have hframe := MakeHTTPRequestWithRetry_store_frame transport pR now
      (ud.SetAuthTokens hardTokens false)
  rw [hrun] at hframe
  have hud1p : ud1.purchases = ud.purchases := hframe.1
  refine ⟨?_, ?_, ?_, ?_⟩
  · intro hb
    refine ⟨"result has no body; status: " ++ toString r.status, ?_⟩
    simp [NewExpiringPurchase, hrun, parsePurchaseBody, hb, hst, kHTTPStatusOK,
      kHTTPStatusTooManyRequests, kHTTPStatusPaymentRequired, kHTTPStatusConflict]
  · intro hb hj
    refine ⟨"json parse failed", ?_⟩
    simp [NewExpiringPurchase, hrun, parsePurchaseBody, hb, hj, hst, kHTTPStatusOK,
      kHTTPStatusTooManyRequests, kHTTPStatusPaymentRequired, kHTTPStatusConflict]
  · intro j tid s texp hb hj hty htid htidne hexp hpiso htexpne
    have heq : NewExpiringPurchase transport pb piso pR now cls dist price ud
        = (Except.ok ⟨PsiCashStatus.Success,
              some (mkPurchase tid cls dist (j.Authorization.getD "") texp)⟩,
           UserData.AddPurchase
             (match j.Balance with
              | some b => UserData.SetBalance ud1 b
              | none => ud1)
             (mkPurchase tid cls dist (j.Authorization.getD "") texp)) := by
      simp [NewExpiringPurchase, hrun, parsePurchaseBody, hb, hj, hst, kHTTPStatusOK,
        kHTTPStatusTooManyRequests, kHTTPStatusPaymentRequired, kHTTPStatusConflict,
        hty, htid, htidne, hexp, hpiso, htexpne, mkPurchase]
    refine ⟨_, _, heq, rfl, ?_⟩
    cases hbal : j.Balance <;>
      simp [UserData.AddPurchase, UserData.SetBalance, hud1p]
  · intro j hb hj hfail
    obtain ⟨msg, hmsg⟩ := nep200_validation_failure transport pb piso pR now cls dist
      price ud r ud1 n sl j hrun hst hb hj hfail
    exact ⟨msg, by rw [hmsg]⟩

/-- Witness for claim C1 at a concrete status-200 exchange whose body satisfies
all three mandatory conditions. -/
theorem c1_status200_mandatory_fields_witness :
    ∃ P ud2, NewExpiringPurchase t200 pbGood iso5 rfcNone 0 "speed-boost" "1hr" 100 udEmpty
        = (Except.ok { status := .Success, purchase := some P }, ud2) ∧
      P.id = "abc" ∧ ud2.purchases = udEmpty.purchases ++ [P] :=
  (c1_status200_mandatory_fields t200 pbGood iso5 rfcNone 0 "speed-boost" "1hr" 100 udEmpty
      { status := 200, body := "BODY", date := "", error := "" }
      (udEmpty.SetAuthTokens hardTokens false) 1 [] rfl rfl).2.2.1
    bodyGood "abc" "2030-01-01T00:00:00Z" 5 (by decide) rfl rfl rfl (by decide) rfl rfl
    (by decide)

/-- Claim C2 counterexample: a status-200 response whose body carries integer
Balance 100 but the wrong TransactionResponse.Type makes the call fail with the
fatal type error while the persisted balance has nevertheless changed from 0 to
100 (the balance write at src/psicash.cpp lines 474-477 happens during body
parsing, before the mandatory-field validation). -/
theorem c2_balance_mutated_counterexample :
    (NewExpiringPurchase t200 pbOther iso5 rfcNone 0 "speed-boost" "1hr" 100 udEmpty).1
      = .error "response contained incorrect TransactionResponse.Type; want expiring-purchase, got other" ∧
    (NewExpiringPurchase t200 pbOther iso5 rfcNone 0 "speed-boost" "1hr" 100 udEmpty).2.balance
      = 100 ∧
    udEmpty.balance = 0 :=
  ⟨rfl, rfl, rfl⟩

/-- Claim C2 (amended): when a status-200 response fails mandatory-field
validation the call returns a fatal error and the persisted purchase list is
unchanged; the persisted balance, however, has already been updated to any
integer Balance field the body contained (and is unchanged only when the body
carried none). -/
theorem c2_validation_failure_store_effects
    (transport : Nat → TransportReturn) (pb : String → Option TransactionBody)
    (piso : String → Option Nat) (pR : String → Option Int) (now : Int)
    (cls dist : String) (price : Int) (ud : UserData)
    (r : HTTPResult) (ud1 : UserData) (n : Nat) (sl : List Nat)
    (j : TransactionBody)
    (hrun : MakeHTTPRequestWithRetry transport pR now (ud.SetAuthTokens hardTokens false)
        = ⟨.ok r, ud1, n, sl⟩)
    (hst : r.status = 200)
    (hb : r.body ≠ "")
    (hj : pb r.body = some j)
    (hfail : ¬ mandatory200 piso j) :
    ∃ msg ud2, NewExpiringPurchase transport pb piso pR now cls dist price ud
        = (Except.error msg, ud2) ∧
      ud2.purchases = ud.purchases ∧
      ud2.balance = (match j.Balance with | some b => b | none => ud.balance) := by
  obtain ⟨msg, hmsg⟩ := nep200_validation_failure transport pb piso pR now cls dist
    price ud r ud1 n sl j hrun hst hb hj hfail
  have hframe := MakeHTTPRequestWithRetry_store_frame transport pR now
      (ud.SetAuthTokens hardTokens false)
  rw [hrun] at hframe
  have hud1p : ud1.purchases = ud.purchases := hframe.1
  have hud1b : ud1.balance = ud.balance := hframe.2.1
  refine ⟨msg, _, hmsg, ?_, ?_⟩
  · cases hbal : j.Balance <;> simp [UserData.SetBalance, hud1p]
  · cases hbal : j.Balance <;> simp [UserData.SetBalance, hud1b]

/-- Witness for claim C2 at the concrete counterexample exchange. -/
theorem c2_validation_failure_store_effects_witness :
    ∃ msg ud2, NewExpiringPurchase t200 pbOther iso5 rfcNone 0 "speed-boost" "1hr" 100 udEmpty
        = (Except.error msg, ud2) ∧
      ud2.purchases = udEmpty.purchases ∧
      ud2.balance = (match bodyOther.Balance with | some b => b | none => udEmpty.balance) :=
  c2_validation_failure_store_effects t200 pbOther iso5 rfcNone 0 "speed-boost" "1hr"
    100 udEmpty { status := 200, body := "BODY", date := "", error := "" }
    (udEmpty.SetAuthTokens hardTokens false) 1 [] bodyOther rfl rfl (by decide) rfl
    (fun h => absurd h.1 (by decide))

end PsiCash
